import Mathlib

/-!
Verification development for the `market-data-insights` repository
(`src/cloud_functions/etf_data_ingest/main.py` and
`src/cloud_functions/first_cloud_function/main.py`).

The Python source is shallowly embedded below:

* JSON object bodies are modelled as flat association lists
  `List (String × String)`; the code only inspects key membership
  (`'Error Message' in data`, `'Note' in data`) and the corresponding
  string values, so this carries exactly the structure the code reads.
* The external collaborators (the Alpha Vantage HTTP endpoint and the
  GCS upload) are modelled as oracles in an `Env` record: each gives,
  for every possible request, the behaviour the outside world exhibits
  (a transport exception, a JSON decode failure, or a parsed body;
  a storage failure or a successful upload).  `datetime.now()` is
  modelled as a clock reading held in the environment, constant within
  one invocation.
* Python exceptions become an explicit `Except PyExn` value threaded
  through the translation; a `try/except Exception` block becomes a
  `match` on that value.
* Observable side effects (upstream API queries, GCS upload attempts,
  warning logs) are collected in a trace of `Event`s so that claims of
  the form "no upstream call is made" are statements about the trace.
-/

namespace EtfIngest

/-- A parsed JSON object body, restricted to the string-keyed string
fields the code actually inspects. -/
abbrev Payload := List (String × String)

/-- Dictionary lookup: `d[k]` / `k in d` are expressed through this. -/
def lookup (d : Payload) (k : String) : Option String :=
  (d.find? (fun p => p.1 == k)).map Prod.snd

/-- Python exceptions that can reach the handlers in `main.py`. -/
inductive PyExn where
  | valueError (msg : String)
  | requestException (msg : String)
  | jsonDecodeError (msg : String)
  | storageError (msg : String)
  | nameError (msg : String)
deriving DecidableEq, Repr

/-- Python `str(e)` on the exceptions above. -/
def PyExn.message : PyExn → String
  | .valueError m => m
  | .requestException m => m
  | .jsonDecodeError m => m
  | .storageError m => m
  | .nameError m => m

/-- Outcome of one `requests.get(...)` call followed by
`raise_for_status()` and `response.json()`: either a
`requests.RequestException` (connection error, timeout, or non-2xx
status raised by `raise_for_status`), a `json.JSONDecodeError` from an
unparseable body, or a parsed JSON object. -/
inductive HttpResult where
  | exn (msg : String)
  | jsonError (msg : String)
  | ok (data : Payload)
deriving DecidableEq, Repr

/-- Wall-clock reading (`datetime.now()`), to second precision — the
finest granularity the code's `strftime` formats use. -/
structure DateTime where
  year : Nat
  month : Nat
  day : Nat
  hour : Nat
  minute : Nat
  second : Nat
deriving DecidableEq, Repr

/-- A calendar-plausible clock reading. -/
def DateTime.Valid (t : DateTime) : Prop :=
  t.year < 10000 ∧ 1 ≤ t.month ∧ t.month ≤ 12 ∧ 1 ≤ t.day ∧ t.day ≤ 31
    ∧ t.hour < 24 ∧ t.minute < 60 ∧ t.second < 60

instance (t : DateTime) : Decidable t.Valid := by
  unfold DateTime.Valid
  exact inferInstance

/-- Two zero-padded decimal digits, as printed by `strftime` for
`%m`, `%d`, `%H`, `%M`, `%S`. -/
def digits2 (n : Nat) : List Char :=
  [Nat.digitChar (n / 10 % 10), Nat.digitChar (n % 10)]

/-- Four zero-padded decimal digits, as printed by `strftime` for `%Y`. -/
def digits4 (n : Nat) : List Char :=
  [Nat.digitChar (n / 1000 % 10), Nat.digitChar (n / 100 % 10),
   Nat.digitChar (n / 10 % 10), Nat.digitChar (n % 10)]

/-- Character content of `datetime.now().strftime("%Y%m%d_%H%M%S")`. -/
def timestampChars (t : DateTime) : List Char :=
  digits4 t.year ++ digits2 t.month ++ digits2 t.day ++ ['_']
    ++ digits2 t.hour ++ digits2 t.minute ++ digits2 t.second

/-- The `strftime("%Y%m%d_%H%M%S")` timestamp used in blob names and
blob metadata. -/
def timestampStr (t : DateTime) : String := String.mk (timestampChars t)

/-- Character content of `datetime.now().strftime("%Y/%m/%d")`. -/
def datePathChars (t : DateTime) : List Char :=
  digits4 t.year ++ ['/'] ++ digits2 t.month ++ ['/'] ++ digits2 t.day

/-- The `strftime("%Y/%m/%d")` date partition used in blob names. -/
def datePathStr (t : DateTime) : String := String.mk (datePathChars t)

/-- The GCS object key built in `store_to_gcs`:
`f"etf_data/{data_type}/{symbol}/{date_path}/{symbol}_{data_type}_{timestamp}.json"`.
`tTs` is the clock reading taken for `timestamp` and `tDate` the one
taken for `date_path` (the source calls `datetime.now()` twice). -/
def blobName (symbol data_type : String) (tTs tDate : DateTime) : String :=
  "etf_data/" ++ data_type ++ "/" ++ symbol ++ "/" ++ datePathStr tDate ++ "/"
    ++ symbol ++ "_" ++ data_type ++ "_" ++ timestampStr tTs ++ ".json"

/-- Observable side effects of one invocation. -/
inductive Event where
  | apiCall (queryFn : String) (symbol : String)
  | gcsUpload (blob : String) (ok : Bool)
  | warn (msg : String)
deriving DecidableEq, Repr

/-- Behaviour of the external world during one invocation: the parsed
outcome of the `ETF_PROFILE` and `ETF_HOLDINGS` queries per symbol, the
outcome of a GCS upload per blob name, the clock, and the response seen
by `first_cloud_function`'s news query. -/
structure Env where
  now : DateTime
  profileResp : String → HttpResult
  holdingsResp : String → HttpResult
  uploadResult : String → Except String Unit
  newsResp : HttpResult

/-- Process configuration: the two environment variables read by
`AlphaVantageETFIngest.__init__` (`none` models an unset variable). -/
structure Config where
  alpha_vantage_api_key : Option String
  gcs_bucket_name : Option String

/-- The `AlphaVantageETFIngest` client after successful construction. -/
structure AlphaVantageETFIngest where
  api_key : String
  bucket_name : String
deriving DecidableEq, Repr

/-- Translation of `AlphaVantageETFIngest.__init__`: reads the two
environment variables and raises `ValueError` if either is missing or
empty (Python truthiness of `None` and `""`). -/
def AlphaVantageETFIngest.init (cfg : Config) :
    Except PyExn AlphaVantageETFIngest :=
  let api_key := cfg.alpha_vantage_api_key.getD ""
  let bucket_name := cfg.gcs_bucket_name.getD ""
  if api_key = "" then
    .error (.valueError "ALPHA_VANTAGE_API_KEY environment variable is required")
  else if bucket_name = "" then
    .error (.valueError "GCS_BUCKET_NAME environment variable is required")
  else
    .ok { api_key := api_key, bucket_name := bucket_name }

/-- Translation of `AlphaVantageETFIngest.get_etf_profile`: issues the
`ETF_PROFILE` query, propagates transport and parse exceptions, raises
`ValueError` when the body carries an `'Error Message'` field, logs a
warning (without failing) when it carries a `'Note'` field, and
otherwise returns the body. -/
def get_etf_profile (env : Env) (symbol : String) :
    List Event × Except PyExn Payload :=
  let call := Event.apiCall "ETF_PROFILE" symbol
  match env.profileResp symbol with
  | .exn m => ([call], .error (.requestException m))
  | .jsonError m => ([call], .error (.jsonDecodeError m))
  | .ok data =>
    match lookup data "Error Message" with
    | some m => ([call], .error (.valueError ("Alpha Vantage API 错误: " ++ m)))
    | none =>
      match lookup data "Note" with
      | some note =>
        ([call, .warn ("Alpha Vantage API 注意事项: " ++ note)], .ok data)
      | none => ([call], .ok data)

/-- Translation of `AlphaVantageETFIngest.get_etf_holdings`: identical
to `get_etf_profile` except for the `ETF_HOLDINGS` query function. -/
def get_etf_holdings (env : Env) (symbol : String) :
    List Event × Except PyExn Payload :=
  let call := Event.apiCall "ETF_HOLDINGS" symbol
  match env.holdingsResp symbol with
  | .exn m => ([call], .error (.requestException m))
  | .jsonError m => ([call], .error (.jsonDecodeError m))
  | .ok data =>
    match lookup data "Error Message" with
    | some m => ([call], .error (.valueError ("Alpha Vantage API 错误: " ++ m)))
    | none =>
      match lookup data "Note" with
      | some note =>
        ([call, .warn ("Alpha Vantage API 注意事项: " ++ note)], .ok data)
      | none => ([call], .ok data)

/-- Translation of `AlphaVantageETFIngest.store_to_gcs`: computes the
blob name from two clock readings, attempts the upload (the payload's
serialized content does not influence the key or the outcome oracle),
and either raises the storage exception or returns the
`gs://bucket/blob` location. -/
def store_to_gcs (c : AlphaVantageETFIngest) (env : Env) (tTs tDate : DateTime)
    (data : Payload) (symbol data_type : String) :
    List Event × Except PyExn String :=
  let _ := data
  let blob_name := blobName symbol data_type tTs tDate
  match env.uploadResult blob_name with
  | .error m => ([.gcsUpload blob_name false], .error (.storageError m))
  | .ok _ =>
    ([.gcsUpload blob_name true],
     .ok ("gs://" ++ c.bucket_name ++ "/" ++ blob_name))

/-- Character content of `datetime.now().isoformat()` restricted to
second precision. -/
def DateTime.isoformat (t : DateTime) : String :=
  String.mk (digits4 t.year ++ ['-'] ++ digits2 t.month ++ ['-'] ++ digits2 t.day
    ++ ['T'] ++ digits2 t.hour ++ [':'] ++ digits2 t.minute ++ [':'] ++ digits2 t.second)

/-- The `result` dict built by `ingest_etf_data`. -/
structure SymbolOutcome where
  symbol : String
  timestamp : String
  files_created : List String
  status : String
  error_message : Option String
deriving DecidableEq, Repr

/-- Translation of `AlphaVantageETFIngest.ingest_etf_data`: fetch and
store the profile, then (when `include_holdings`) fetch and store the
holdings; any exception raised by a step is caught by the
`except Exception` clause and recorded as `status = 'error'` with
`error_message = str(e)`, keeping the locations appended so far. -/
def AlphaVantageETFIngest.ingest_etf_data (c : AlphaVantageETFIngest)
    (env : Env) (symbol : String) (include_holdings : Bool) :
    List Event × SymbolOutcome :=
  let ts := DateTime.isoformat env.now
  match get_etf_profile env symbol with
  | (ev1, .error e) =>
    (ev1, { symbol := symbol, timestamp := ts, files_created := [],
            status := "error", error_message := some e.message })
  | (ev1, .ok profile_data) =>
    match store_to_gcs c env env.now env.now profile_data symbol "profile" with
    | (ev2, .error e) =>
      (ev1 ++ ev2, { symbol := symbol, timestamp := ts, files_created := [],
                     status := "error", error_message := some e.message })
    | (ev2, .ok profile_path) =>
      if include_holdings then
        match get_etf_holdings env symbol with
        | (ev3, .error e) =>
          (ev1 ++ ev2 ++ ev3,
           { symbol := symbol, timestamp := ts, files_created := [profile_path],
             status := "error", error_message := some e.message })
        | (ev3, .ok holdings_data) =>
          match store_to_gcs c env env.now env.now holdings_data symbol "holdings" with
          | (ev4, .error e) =>
            (ev1 ++ ev2 ++ ev3 ++ ev4,
             { symbol := symbol, timestamp := ts, files_created := [profile_path],
               status := "error", error_message := some e.message })
          | (ev4, .ok holdings_path) =>
            (ev1 ++ ev2 ++ ev3 ++ ev4,
             { symbol := symbol, timestamp := ts,
               files_created := [profile_path, holdings_path],
               status := "success", error_message := none })
      else
        (ev1 ++ ev2,
         { symbol := symbol, timestamp := ts, files_created := [profile_path],
           status := "success", error_message := none })

/-- The parsed JSON body of an HTTP request, restricted to the two
fields the handler reads. -/
structure RequestJson where
  symbol : Option String
  include_holdings : Option Bool
deriving DecidableEq, Repr

/-- An inbound HTTP request; `json = none` models
`request.get_json(silent=True)` returning a falsy value (malformed or
missing or empty JSON body). -/
structure HttpRequest where
  method : String
  json : Option RequestJson
deriving DecidableEq, Repr

/-- Response body of the HTTP handler: one of the dict shapes the
handler returns. -/
inductive HttpResponseBody where
  | errorJson (msg : String)
  | outcome (o : SymbolOutcome)
  | exnJson (error_message : String) (timestamp : String)
deriving DecidableEq, Repr

/-- Translation of the `etf_data_ingest` HTTP entry point: rejects
non-POST methods (405) and falsy JSON bodies or falsy `symbol` fields
(400) before constructing the client; then runs the ingestion and
returns it with 200 on `'success'` and 500 otherwise.  A `ValueError`
from construction is caught by the outer `except` and returned as a
500 error dict. -/
def etf_data_ingest (cfg : Config) (env : Env) (req : HttpRequest) :
    List Event × HttpResponseBody × Nat :=
  if req.method ≠ "POST" then
    ([], .errorJson "只支持 POST 请求", 405)
  else
    match req.json with
    | none => ([], .errorJson "请求体必须是有效的 JSON", 400)
    | some rj =>
      if rj.symbol.getD "" = "" then
        ([], .errorJson "参数 symbol 是必需的", 400)
      else
        let symbol := rj.symbol.getD ""
        let include_holdings := rj.include_holdings.getD true
        match AlphaVantageETFIngest.init cfg with
        | .error e =>
          ([], .exnJson e.message (DateTime.isoformat env.now), 500)
        | .ok c =>
          let r := c.ingest_etf_data env symbol include_holdings
          (r.1, .outcome r.2, if r.2.status = "success" then 200 else 500)

/-- The scheduled trigger's event payload, restricted to the two fields
the handler reads (`none` models a missing key). -/
structure CloudEvent where
  symbols : Option (List String)
  include_holdings : Option Bool
deriving DecidableEq, Repr

/-- Translation of the `etf_data_ingest_scheduled` entry point: reads
`symbols` (default `[]`) and `include_holdings` (default `True`),
returns `None` early when the symbol list is falsy, otherwise
constructs the client (a construction exception is re-raised by the
outer `except`) and runs `ingest_etf_data` once per symbol in order,
collecting the per-symbol results. -/
def etf_data_ingest_scheduled (cfg : Config) (env : Env) (ce : CloudEvent) :
    List Event × Except PyExn (Option (List SymbolOutcome)) :=
  let syms := ce.symbols.getD []
  let include_holdings := ce.include_holdings.getD true
  if syms = [] then
    ([], .ok none)
  else
    match AlphaVantageETFIngest.init cfg with
    | .error e => ([], .error e)
    | .ok c =>
      let runs := syms.map (fun s => c.ingest_etf_data env s include_holdings)
      ((runs.map Prod.fst).flatten, .ok (some (runs.map Prod.snd)))

/-- The names bound at module level in
`src/cloud_functions/first_cloud_function/main.py`: its only import
statement is `import functions_framework`. -/
def first_module_globals : List String := ["functions_framework"]

/-- Translation of `hello_http` in `first_cloud_function/main.py`.
Python resolves the name `requests` at the first executed use; since
the module never imports it, that lookup raises `NameError` before the
network call.  The fetch-and-return branch is modelled under the name
check so that its unreachability is a provable statement. -/
def hello_http (env : Env) : List Event × Except PyExn Payload :=
  if first_module_globals.contains "requests" then
    let call := Event.apiCall "NEWS_SENTIMENT" "AAPL"
    match env.newsResp with
    | .exn m => ([call], .error (.requestException m))
    | .jsonError m => ([call], .error (.jsonDecodeError m))
    | .ok data =>
      match lookup data "Error Message" with
      | some m => ([call], .error (.valueError ("Alpha Vantage API 错误: " ++ m)))
      | none => ([call], .ok data)
  else
    ([], .error (.nameError "name 'requests' is not defined"))

/-! Derived predicates used to state the claims. -/

/-- The body carries the upstream in-band failure marker. -/
def hasErrorMessage (d : Payload) : Bool := (lookup d "Error Message").isSome

/-- The profile fetch step for `s` raises (transport failure, parse
failure, or in-band `'Error Message'`). -/
def profileFetchFails (env : Env) (s : String) : Bool :=
  match env.profileResp s with
  | .ok d => hasErrorMessage d
  | _ => true

/-- The holdings fetch step for `s` raises. -/
def holdingsFetchFails (env : Env) (s : String) : Bool :=
  match env.holdingsResp s with
  | .ok d => hasErrorMessage d
  | _ => true

/-- The profile upload for `s` raises a storage error. -/
def profileWriteFails (env : Env) (s : String) : Bool :=
  match env.uploadResult (blobName s "profile" env.now env.now) with
  | .error _ => true
  | .ok _ => false

/-- The holdings upload for `s` raises a storage error. -/
def holdingsWriteFails (env : Env) (s : String) : Bool :=
  match env.uploadResult (blobName s "holdings" env.now env.now) with
  | .error _ => true
  | .ok _ => false

/-- Some fetch or write step of `ingest_etf_data s ih` fails. -/
def anyStepFails (env : Env) (s : String) (ih : Bool) : Bool :=
  profileFetchFails env s || profileWriteFails env s
    || (ih && (holdingsFetchFails env s || holdingsWriteFails env s))

/-- The `gs://` location returned by a successful profile write. -/
def profileLocation (c : AlphaVantageETFIngest) (env : Env) (s : String) : String :=
  "gs://" ++ c.bucket_name ++ "/" ++ blobName s "profile" env.now env.now

/-- The `gs://` location returned by a successful holdings write. -/
def holdingsLocation (c : AlphaVantageETFIngest) (env : Env) (s : String) : String :=
  "gs://" ++ c.bucket_name ++ "/" ++ blobName s "holdings" env.now env.now

/-- Recognizer for upstream API query events. -/
def Event.isApiCall : Event → Bool
  | .apiCall _ _ => true
  | _ => false

/-- Recognizer for upload attempt events. -/
def Event.isUpload : Event → Bool
  | .gcsUpload _ _ => true
  | _ => false

/-! Concrete inputs used by witnesses and counterexamples. -/

/-- A concrete clock reading. -/
def T0 : DateTime := ⟨2024, 1, 2, 3, 4, 5⟩

/-- A second concrete clock reading, one second after `T0`. -/
def T1 : DateTime := ⟨2024, 1, 2, 3, 4, 6⟩

/-- A concrete valid configuration. -/
def cexCfg : Config := ⟨some "k", some "b"⟩

/-- The client constructed from `cexCfg`. -/
def cClient : AlphaVantageETFIngest := ⟨"k", "b"⟩

/-- An environment in which every collaborator succeeds and the bodies
carry an advisory `'Note'` field. -/
def wEnv : Env where
  now := T0
  profileResp := fun _ => .ok [("Note", "rate limit note")]
  holdingsResp := fun _ => .ok [("Note", "rate limit note")]
  uploadResult := fun _ => .ok ()
  newsResp := .ok []

/-- An environment in which the profile fetch raises a transport
exception. -/
def fEnv : Env where
  now := T0
  profileResp := fun _ => .exn "connection reset"
  holdingsResp := fun _ => .ok []
  uploadResult := fun _ => .ok ()
  newsResp := .ok []

/-- An environment in which the profile pipeline succeeds but the
holdings fetch raises. -/
def hEnv : Env where
  now := T0
  profileResp := fun _ => .ok []
  holdingsResp := fun _ => .exn "connection reset"
  uploadResult := fun _ => .ok ()
  newsResp := .ok []

/-- A scheduled event carrying a duplicated symbol list. -/
def cexEvent : CloudEvent := ⟨some ["QQQ", "QQQ"], some false⟩

/-! Helper lemmas about the timestamp formatting. -/

theorem data_mk (l : List Char) : (String.mk l).data = l := rfl

theorem digitChar_inj_lt {a b : Nat} (ha : a < 10) (hb : b < 10)
    (h : Nat.digitChar a = Nat.digitChar b) : a = b := by
  have key : ∀ x y : Fin 10, Nat.digitChar x.val = Nat.digitChar y.val → x = y := by decide
  exact congrArg Fin.val (key ⟨a, ha⟩ ⟨b, hb⟩ h)

theorem timestampChars_inj {t₁ t₂ : DateTime} (h₁ : t₁.Valid) (h₂ : t₂.Valid)
    (h : timestampChars t₁ = timestampChars t₂) : t₁ = t₂ := by
  obtain ⟨y₁, mo₁, d₁, hr₁, mi₁, s₁⟩ := t₁
  obtain ⟨y₂, mo₂, d₂, hr₂, mi₂, s₂⟩ := t₂
  obtain ⟨hy₁, hmo₁l, hmo₁, hdl₁, hdu₁, hhr₁, hmi₁, hs₁⟩ := h₁
  obtain ⟨hy₂, hmo₂l, hmo₂, hdl₂, hdu₂, hhr₂, hmi₂, hs₂⟩ := h₂
  dsimp only at hy₁ hmo₁l hmo₁ hdl₁ hdu₁ hhr₁ hmi₁ hs₁ hy₂ hmo₂l hmo₂ hdl₂ hdu₂ hhr₂ hmi₂ hs₂
  simp only [timestampChars, digits4, digits2, List.cons_append, List.nil_append,
    List.cons.injEq, and_true] at h
  obtain ⟨e1, e2, e3, e4, e5, e6, e7, e8, -, e9, e10, e11, e12, e13, e14⟩ := h
  have l10 : ∀ x : Nat, x % 10 < 10 := fun x => Nat.mod_lt _ (by omega)
  simp only [DateTime.mk.injEq]
  refine ⟨?_, ?_, ?_, ?_, ?_, ?_⟩
  · have q1 := digitChar_inj_lt (l10 _) (l10 _) e1
    have q2 := digitChar_inj_lt (l10 _) (l10 _) e2
    have q3 := digitChar_inj_lt (l10 _) (l10 _) e3
    have q4 := digitChar_inj_lt (l10 _) (l10 _) e4
    omega
  · have q1 := digitChar_inj_lt (l10 _) (l10 _) e5
    have q2 := digitChar_inj_lt (l10 _) (l10 _) e6
    omega
  · have q1 := digitChar_inj_lt (l10 _) (l10 _) e7
    have q2 := digitChar_inj_lt (l10 _) (l10 _) e8
    omega
  · have q1 := digitChar_inj_lt (l10 _) (l10 _) e9
    have q2 := digitChar_inj_lt (l10 _) (l10 _) e10
    omega
  · have q1 := digitChar_inj_lt (l10 _) (l10 _) e11
    have q2 := digitChar_inj_lt (l10 _) (l10 _) e12
    omega
  · have q1 := digitChar_inj_lt (l10 _) (l10 _) e13
    have q2 := digitChar_inj_lt (l10 _) (l10 _) e14
    omega

theorem blobName_time_inj (s k : String) {t₁ t₂ : DateTime}
    (h₁ : t₁.Valid) (h₂ : t₂.Valid) (hne : t₁ ≠ t₂) :
    blobName s k t₁ t₁ ≠ blobName s k t₂ t₂ := by
  intro h
  apply hne
  apply timestampChars_inj h₁ h₂
  have hd := congrArg String.data h
  simp only [blobName, datePathStr, timestampStr, String.data_append, data_mk,
    List.append_assoc] at hd
  replace hd := List.append_cancel_left hd
  replace hd := List.append_cancel_left hd
  replace hd := List.append_cancel_left hd
  replace hd := List.append_cancel_left hd
  replace hd := List.append_cancel_left hd
  obtain ⟨-, hd⟩ := List.append_inj hd (by simp [datePathChars, digits4, digits2])
  replace hd := List.append_cancel_left hd
  replace hd := List.append_cancel_left hd
  replace hd := List.append_cancel_left hd
  replace hd := List.append_cancel_left hd
  replace hd := List.append_cancel_left hd
  exact List.append_cancel_right hd

/-! Branch characterizations of the fetch, store and ingest steps. -/

/-- Warning events emitted while inspecting a successfully parsed body. -/
def noteEvents (d : Payload) : List Event :=
  match lookup d "Note" with
  | some note => [Event.warn ("Alpha Vantage API 注意事项: " ++ note)]
  | none => []

theorem get_etf_profile_exn {env : Env} {s m : String}
    (h : env.profileResp s = .exn m) :
    get_etf_profile env s
      = ([.apiCall "ETF_PROFILE" s], .error (.requestException m)) := by
  simp [get_etf_profile, h]

theorem get_etf_profile_jsonError {env : Env} {s m : String}
    (h : env.profileResp s = .jsonError m) :
    get_etf_profile env s
      = ([.apiCall "ETF_PROFILE" s], .error (.jsonDecodeError m)) := by
  simp [get_etf_profile, h]

theorem get_etf_profile_apiError {env : Env} {s m : String} {d : Payload}
    (h : env.profileResp s = .ok d) (hem : lookup d "Error Message" = some m) :
    get_etf_profile env s
      = ([.apiCall "ETF_PROFILE" s],
         .error (.valueError ("Alpha Vantage API 错误: " ++ m))) := by
  simp [get_etf_profile, h, hem]

theorem get_etf_profile_ok {env : Env} {s : String} {d : Payload}
    (h : env.profileResp s = .ok d) (hem : lookup d "Error Message" = none) :
    get_etf_profile env s = ([Event.apiCall "ETF_PROFILE" s] ++ noteEvents d, .ok d) := by
  simp only [get_etf_profile, noteEvents, h, hem]
  cases hn : lookup d "Note" <;> simp [hn]

theorem get_etf_holdings_exn {env : Env} {s m : String}
    (h : env.holdingsResp s = .exn m) :
    get_etf_holdings env s
      = ([.apiCall "ETF_HOLDINGS" s], .error (.requestException m)) := by
  simp [get_etf_holdings, h]

theorem get_etf_holdings_jsonError {env : Env} {s m : String}
    (h : env.holdingsResp s = .jsonError m) :
    get_etf_holdings env s
      = ([.apiCall "ETF_HOLDINGS" s], .error (.jsonDecodeError m)) := by
  simp [get_etf_holdings, h]

theorem get_etf_holdings_apiError {env : Env} {s m : String} {d : Payload}
    (h : env.holdingsResp s = .ok d) (hem : lookup d "Error Message" = some m) :
    get_etf_holdings env s
      = ([.apiCall "ETF_HOLDINGS" s],
         .error (.valueError ("Alpha Vantage API 错误: " ++ m))) := by
  simp [get_etf_holdings, h, hem]

theorem get_etf_holdings_ok {env : Env} {s : String} {d : Payload}
    (h : env.holdingsResp s = .ok d) (hem : lookup d "Error Message" = none) :
    get_etf_holdings env s = ([Event.apiCall "ETF_HOLDINGS" s] ++ noteEvents d, .ok d) := by
  simp only [get_etf_holdings, noteEvents, h, hem]
  cases hn : lookup d "Note" <;> simp [hn]

theorem store_to_gcs_error {c : AlphaVantageETFIngest} {env : Env}
    {t₁ t₂ : DateTime} {d : Payload} {s k m : String}
    (h : env.uploadResult (blobName s k t₁ t₂) = .error m) :
    store_to_gcs c env t₁ t₂ d s k
      = ([.gcsUpload (blobName s k t₁ t₂) false], .error (.storageError m)) := by
  simp [store_to_gcs, h]

theorem store_to_gcs_ok {c : AlphaVantageETFIngest} {env : Env}
    {t₁ t₂ : DateTime} {d : Payload} {s k : String} {u : Unit}
    (h : env.uploadResult (blobName s k t₁ t₂) = .ok u) :
    store_to_gcs c env t₁ t₂ d s k
      = ([.gcsUpload (blobName s k t₁ t₂) true],
         .ok ("gs://" ++ c.bucket_name ++ "/" ++ blobName s k t₁ t₂)) := by
  simp [store_to_gcs, h]

theorem ingest_profile_fetch_err {c : AlphaVantageETFIngest} {env : Env}
    {s : String} {ih : Bool} {ev1 : List Event} {e : PyExn}
    (hp : get_etf_profile env s = (ev1, .error e)) :
    c.ingest_etf_data env s ih
      = (ev1, { symbol := s, timestamp := DateTime.isoformat env.now,
                files_created := [], status := "error",
                error_message := some e.message }) := by
  simp only [AlphaVantageETFIngest.ingest_etf_data, hp]

theorem ingest_profile_write_err {c : AlphaVantageETFIngest} {env : Env}
    {s : String} {ih : Bool} {ev1 ev2 : List Event} {pd : Payload} {e : PyExn}
    (hp : get_etf_profile env s = (ev1, .ok pd))
    (hw : store_to_gcs c env env.now env.now pd s "profile" = (ev2, .error e)) :
    c.ingest_etf_data env s ih
      = (ev1 ++ ev2, { symbol := s, timestamp := DateTime.isoformat env.now,
                       files_created := [], status := "error",
                       error_message := some e.message }) := by
  simp only [AlphaVantageETFIngest.ingest_etf_data, hp, hw]

theorem ingest_no_holdings_ok {c : AlphaVantageETFIngest} {env : Env}
    {s : String} {ev1 ev2 : List Event} {pd : Payload} {pp : String}
    (hp : get_etf_profile env s = (ev1, .ok pd))
    (hw : store_to_gcs c env env.now env.now pd s "profile" = (ev2, .ok pp)) :
    c.ingest_etf_data env s false
      = (ev1 ++ ev2, { symbol := s, timestamp := DateTime.isoformat env.now,
                       files_created := [pp], status := "success",
                       error_message := none }) := by
  simp only [AlphaVantageETFIngest.ingest_etf_data, hp, hw, Bool.false_eq_true,
    if_false]

theorem ingest_holdings_fetch_err {c : AlphaVantageETFIngest} {env : Env}
    {s : String} {ev1 ev2 ev3 : List Event} {pd : Payload} {pp : String} {e : PyExn}
    (hp : get_etf_profile env s = (ev1, .ok pd))
    (hw : store_to_gcs c env env.now env.now pd s "profile" = (ev2, .ok pp))
    (hh : get_etf_holdings env s = (ev3, .error e)) :
    c.ingest_etf_data env s true
      = (ev1 ++ ev2 ++ ev3,
         { symbol := s, timestamp := DateTime.isoformat env.now,
           files_created := [pp], status := "error",
           error_message := some e.message }) := by
  simp only [AlphaVantageETFIngest.ingest_etf_data, hp, hw, hh, if_true]

theorem ingest_holdings_write_err {c : AlphaVantageETFIngest} {env : Env}
    {s : String} {ev1 ev2 ev3 ev4 : List Event} {pd hd : Payload} {pp : String}
    {e : PyExn}
    (hp : get_etf_profile env s = (ev1, .ok pd))
    (hw : store_to_gcs c env env.now env.now pd s "profile" = (ev2, .ok pp))
    (hh : get_etf_holdings env s = (ev3, .ok hd))
    (hw2 : store_to_gcs c env env.now env.now hd s "holdings" = (ev4, .error e)) :
    c.ingest_etf_data env s true
      = (ev1 ++ ev2 ++ ev3 ++ ev4,
         { symbol := s, timestamp := DateTime.isoformat env.now,
           files_created := [pp], status := "error",
           error_message := some e.message }) := by
  simp only [AlphaVantageETFIngest.ingest_etf_data, hp, hw, hh, hw2, if_true]

theorem ingest_all_ok {c : AlphaVantageETFIngest} {env : Env}
    {s : String} {ev1 ev2 ev3 ev4 : List Event} {pd hd : Payload} {pp hp2 : String}
    (hp : get_etf_profile env s = (ev1, .ok pd))
    (hw : store_to_gcs c env env.now env.now pd s "profile" = (ev2, .ok pp))
    (hh : get_etf_holdings env s = (ev3, .ok hd))
    (hw2 : store_to_gcs c env env.now env.now hd s "holdings" = (ev4, .ok hp2)) :
    c.ingest_etf_data env s true
      = (ev1 ++ ev2 ++ ev3 ++ ev4,
         { symbol := s, timestamp := DateTime.isoformat env.now,
           files_created := [pp, hp2], status := "success",
           error_message := none }) := by
  simp only [AlphaVantageETFIngest.ingest_etf_data, hp, hw, hh, hw2, if_true]

theorem profile_cases (env : Env) (s : String) :
    (profileFetchFails env s = true
      ∧ ∃ e, get_etf_profile env s = ([Event.apiCall "ETF_PROFILE" s], .error e))
    ∨ (profileFetchFails env s = false
      ∧ ∃ d, env.profileResp s = .ok d
        ∧ get_etf_profile env s
            = ([Event.apiCall "ETF_PROFILE" s] ++ noteEvents d, .ok d)) := by
  rcases h : env.profileResp s with m | m | d
  · exact Or.inl ⟨by simp [profileFetchFails, h], _, get_etf_profile_exn h⟩
  · exact Or.inl ⟨by simp [profileFetchFails, h], _, get_etf_profile_jsonError h⟩
  · rcases hem : lookup d "Error Message" with _ | m
    · exact Or.inr ⟨by simp [profileFetchFails, hasErrorMessage, h, hem], d, rfl,
        get_etf_profile_ok h hem⟩
    · exact Or.inl ⟨by simp [profileFetchFails, hasErrorMessage, h, hem], _,
        get_etf_profile_apiError h hem⟩

theorem holdings_cases (env : Env) (s : String) :
    (holdingsFetchFails env s = true
      ∧ ∃ e, get_etf_holdings env s = ([Event.apiCall "ETF_HOLDINGS" s], .error e))
    ∨ (holdingsFetchFails env s = false
      ∧ ∃ d, env.holdingsResp s = .ok d
        ∧ get_etf_holdings env s
            = ([Event.apiCall "ETF_HOLDINGS" s] ++ noteEvents d, .ok d)) := by
  rcases h : env.holdingsResp s with m | m | d
  · exact Or.inl ⟨by simp [holdingsFetchFails, h], _, get_etf_holdings_exn h⟩
  · exact Or.inl ⟨by simp [holdingsFetchFails, h], _, get_etf_holdings_jsonError h⟩
  · rcases hem : lookup d "Error Message" with _ | m
    · exact Or.inr ⟨by simp [holdingsFetchFails, hasErrorMessage, h, hem], d, rfl,
        get_etf_holdings_ok h hem⟩
    · exact Or.inl ⟨by simp [holdingsFetchFails, hasErrorMessage, h, hem], _,
        get_etf_holdings_apiError h hem⟩

theorem store_profile_cases (c : AlphaVantageETFIngest) (env : Env)
    (d : Payload) (s : String) :
    (profileWriteFails env s = true
      ∧ ∃ e, store_to_gcs c env env.now env.now d s "profile"
          = ([.gcsUpload (blobName s "profile" env.now env.now) false], .error e))
    ∨ (profileWriteFails env s = false
      ∧ store_to_gcs c env env.now env.now d s "profile"
          = ([.gcsUpload (blobName s "profile" env.now env.now) true],
             .ok (profileLocation c env s))) := by
  rcases h : env.uploadResult (blobName s "profile" env.now env.now) with m | u
  · exact Or.inl ⟨by simp [profileWriteFails, h], _, store_to_gcs_error h⟩
  · exact Or.inr ⟨by simp [profileWriteFails, h], store_to_gcs_ok h⟩

theorem store_holdings_cases (c : AlphaVantageETFIngest) (env : Env)
    (d : Payload) (s : String) :
    (holdingsWriteFails env s = true
      ∧ ∃ e, store_to_gcs c env env.now env.now d s "holdings"
          = ([.gcsUpload (blobName s "holdings" env.now env.now) false], .error e))
    ∨ (holdingsWriteFails env s = false
      ∧ store_to_gcs c env env.now env.now d s "holdings"
          = ([.gcsUpload (blobName s "holdings" env.now env.now) true],
             .ok (holdingsLocation c env s))) := by
  rcases h : env.uploadResult (blobName s "holdings" env.now env.now) with m | u
  · exact Or.inl ⟨by simp [holdingsWriteFails, h], _, store_to_gcs_error h⟩
  · exact Or.inr ⟨by simp [holdingsWriteFails, h], store_to_gcs_ok h⟩

theorem ingest_msg_iff_error (c : AlphaVantageETFIngest) (env : Env)
    (s : String) (ih : Bool) :
    (c.ingest_etf_data env s ih).2.error_message.isSome = true
      ↔ (c.ingest_etf_data env s ih).2.status = "error" := by
  rcases profile_cases env s with ⟨hf, e, hp⟩ | ⟨hf, d, hresp, hp⟩
  · rw [ingest_profile_fetch_err hp]
    simp
  · rcases store_profile_cases c env d s with ⟨hwf, e, hw⟩ | ⟨hwf, hw⟩
    · rw [ingest_profile_write_err hp hw]
      simp
    · cases ih with
      | false =>
        rw [ingest_no_holdings_ok hp hw]
        simp
      | true =>
        rcases holdings_cases env s with ⟨hhf, e, hh⟩ | ⟨hhf, d2, hresp2, hh⟩
        · rw [ingest_holdings_fetch_err hp hw hh]
          simp
        · rcases store_holdings_cases c env d2 s with ⟨hw2f, e, hw2⟩ | ⟨hw2f, hw2⟩
          · rw [ingest_holdings_write_err hp hw hh hw2]
            simp
          · rw [ingest_all_ok hp hw hh hw2]
            simp

theorem mem_noteEvents {e : Event} {d : Payload} (h : e ∈ noteEvents d) :
    ∃ w, e = .warn w := by
  unfold noteEvents at h
  rcases hn : lookup d "Note" with _ | note <;> rw [hn] at h
  · simp at h
  · simp at h
    exact ⟨_, h⟩

theorem noteEvents_filter_apiCall (d : Payload) :
    (noteEvents d).filter Event.isApiCall = [] := by
  unfold noteEvents
  rcases lookup d "Note" with _ | note <;> simp [Event.isApiCall]

theorem noteEvents_filter_upload (d : Payload) :
    (noteEvents d).filter Event.isUpload = [] := by
  unfold noteEvents
  rcases lookup d "Note" with _ | note <;> simp [Event.isUpload]

theorem ingest_symbol_eq (c : AlphaVantageETFIngest) (env : Env)
    (s : String) (ih : Bool) : (c.ingest_etf_data env s ih).2.symbol = s := by
  rcases profile_cases env s with ⟨hf, e, hp⟩ | ⟨hf, d, hresp, hp⟩
  · rw [ingest_profile_fetch_err hp]
  · rcases store_profile_cases c env d s with ⟨hwf, e, hw⟩ | ⟨hwf, hw⟩
    · rw [ingest_profile_write_err hp hw]
    · cases ih with
      | false => rw [ingest_no_holdings_ok hp hw]
      | true =>
        rcases holdings_cases env s with ⟨hhf, e, hh⟩ | ⟨hhf, d2, hresp2, hh⟩
        · rw [ingest_holdings_fetch_err hp hw hh]
        · rcases store_holdings_cases c env d2 s with ⟨hw2f, e, hw2⟩ | ⟨hw2f, hw2⟩
          · rw [ingest_holdings_write_err hp hw hh hw2]
          · rw [ingest_all_ok hp hw hh hw2]

/-! The claims. -/

/-- C7: for every symbol, kind and fixed clock reading, the storage key
computed by `store_to_gcs` is determined solely by symbol, kind and the
second-level timestamp, equals the hierarchical path
`etf_data/<kind>/<symbol>/<YYYY/MM/DD>/<symbol>_<kind>_<YYYYMMDD_HHMMSS>.json`,
and keys for the same symbol and kind at two distinct second-level
timestamps are distinct. -/
theorem store_key_deterministic_unique (c : AlphaVantageETFIngest) (env : Env)
    (d : Payload) (s k : String) (t t₁ t₂ : DateTime) :
    (∃ ok, (store_to_gcs c env t t d s k).1
        = [Event.gcsUpload (blobName s k t t) ok])
    ∧ blobName s k t t
        = "etf_data/" ++ k ++ "/" ++ s ++ "/" ++ datePathStr t ++ "/"
            ++ s ++ "_" ++ k ++ "_" ++ timestampStr t ++ ".json"
    ∧ (t₁.Valid → t₂.Valid → t₁ ≠ t₂ →
        blobName s k t₁ t₁ ≠ blobName s k t₂ t₂) := by
  refine ⟨?_, rfl, fun h₁ h₂ hne => blobName_time_inj s k h₁ h₂ hne⟩
  rcases h : env.uploadResult (blobName s k t t) with m | u
  · exact ⟨false, by rw [store_to_gcs_error h]⟩
  · exact ⟨true, by rw [store_to_gcs_ok h]⟩

/-- Witness for C7 at concrete clock readings one second apart. -/
theorem store_key_deterministic_unique_witness :
    blobName "QQQ" "profile" T0 T0 ≠ blobName "QQQ" "profile" T1 T1 :=
  (store_key_deterministic_unique cClient wEnv [] "QQQ" "profile" T0 T0 T1).2.2
    (by decide) (by decide) (by decide)

/-- C9: whatever the collaborators do, the record returned by
`ingest_etf_data` has the input symbol, a status that is exactly
`'success'` or `'error'`, a `files_created` list of length at most two
in which the profile location (when present) precedes the holdings
location, and an `error_message` present exactly when the status is
`'error'`. -/
theorem ingest_outcome_invariants (c : AlphaVantageETFIngest) (env : Env)
    (s : String) (ih : Bool) :
    ((c.ingest_etf_data env s ih).2.symbol = s)
    ∧ ((c.ingest_etf_data env s ih).2.status = "success"
        ∨ (c.ingest_etf_data env s ih).2.status = "error")
    ∧ ((c.ingest_etf_data env s ih).2.files_created.length ≤ 2)
    ∧ ((c.ingest_etf_data env s ih).2.files_created = []
        ∨ (c.ingest_etf_data env s ih).2.files_created = [profileLocation c env s]
        ∨ (c.ingest_etf_data env s ih).2.files_created
            = [profileLocation c env s, holdingsLocation c env s])
    ∧ ((c.ingest_etf_data env s ih).2.error_message.isSome = true
        ↔ (c.ingest_etf_data env s ih).2.status = "error") := by
  rcases profile_cases env s with ⟨hf, e, hp⟩ | ⟨hf, d, hresp, hp⟩
  · rw [ingest_profile_fetch_err hp]
    simp
  · rcases store_profile_cases c env d s with ⟨hwf, e, hw⟩ | ⟨hwf, hw⟩
    · rw [ingest_profile_write_err hp hw]
      simp
    · cases ih with
      | false =>
        rw [ingest_no_holdings_ok hp hw]
        simp
      | true =>
        rcases holdings_cases env s with ⟨hhf, e, hh⟩ | ⟨hhf, d2, hresp2, hh⟩
        · rw [ingest_holdings_fetch_err hp hw hh]
          simp
        · rcases store_holdings_cases c env d2 s with ⟨hw2f, e, hw2⟩ | ⟨hw2f, hw2⟩
          · rw [ingest_holdings_write_err hp hw hh hw2]
            simp
          · rw [ingest_all_ok hp hw hh hw2]
            simp

/-- C10: for every environment, `hello_http` in `first_cloud_function`
raises `NameError` before performing any network call (the module never
imports `requests`), so its normal-return branch is unreachable. -/
theorem hello_http_name_error (env : Env) :
    hello_http env = ([], .error (.nameError "name 'requests' is not defined"))
    ∧ ∀ d, (hello_http env).2 ≠ Except.ok d := by
  refine ⟨rfl, fun d h => ?_⟩
  exact Except.noConfusion h

/-- C5: on a structurally valid (parsed object) upstream body, each
fetch operation classifies the result as an upstream-API failure (the
`ValueError` carrying the upstream message) iff the body contains the
`'Error Message'` field; a body without it is returned as a normal
successful payload, and an advisory `'Note'` field only adds a warning
event. -/
theorem fetch_api_error_classification (env : Env) (s : String) (d : Payload) :
    (env.profileResp s = .ok d →
      ((∃ m, (get_etf_profile env s).2 = .error (.valueError m))
          ↔ hasErrorMessage d = true)
      ∧ (hasErrorMessage d = false →
          (get_etf_profile env s).2 = .ok d
          ∧ ((lookup d "Note").isSome = true →
              ∃ w, Event.warn w ∈ (get_etf_profile env s).1)))
    ∧ (env.holdingsResp s = .ok d →
      ((∃ m, (get_etf_holdings env s).2 = .error (.valueError m))
          ↔ hasErrorMessage d = true)
      ∧ (hasErrorMessage d = false →
          (get_etf_holdings env s).2 = .ok d
          ∧ ((lookup d "Note").isSome = true →
              ∃ w, Event.warn w ∈ (get_etf_holdings env s).1))) := by
  constructor
  · intro h
    rcases hem : lookup d "Error Message" with _ | m
    · rw [get_etf_profile_ok h hem]
      refine ⟨by simp [hasErrorMessage, hem], fun _ => ⟨rfl, fun hn => ?_⟩⟩
      rcases hnote : lookup d "Note" with _ | note
      · rw [hnote] at hn
        exact absurd hn (by simp)
      · exact ⟨"Alpha Vantage API 注意事项: " ++ note, by simp [noteEvents, hnote]⟩
    · rw [get_etf_profile_apiError h hem]
      refine ⟨by simp [hasErrorMessage, hem], fun hf => ?_⟩
      rw [hasErrorMessage, hem] at hf
      exact absurd hf (by simp)
  · intro h
    rcases hem : lookup d "Error Message" with _ | m
    · rw [get_etf_holdings_ok h hem]
      refine ⟨by simp [hasErrorMessage, hem], fun _ => ⟨rfl, fun hn => ?_⟩⟩
      rcases hnote : lookup d "Note" with _ | note
      · rw [hnote] at hn
        exact absurd hn (by simp)
      · exact ⟨"Alpha Vantage API 注意事项: " ++ note, by simp [noteEvents, hnote]⟩
    · rw [get_etf_holdings_apiError h hem]
      refine ⟨by simp [hasErrorMessage, hem], fun hf => ?_⟩
      rw [hasErrorMessage, hem] at hf
      exact absurd hf (by simp)

/-- Witness for C5 on a body carrying only an advisory note. -/
theorem fetch_api_error_classification_witness :
    (get_etf_profile wEnv "QQQ").2 = .ok [("Note", "rate limit note")]
    ∧ (∃ w, Event.warn w ∈ (get_etf_profile wEnv "QQQ").1)
    ∧ (get_etf_holdings wEnv "QQQ").2 = .ok [("Note", "rate limit note")] := by
  have h := fetch_api_error_classification wEnv "QQQ" [("Note", "rate limit note")]
  have h1 := (h.1 rfl).2 rfl
  have h2 := (h.2 rfl).2 rfl
  exact ⟨h1.1, h1.2 rfl, h2.1⟩

/-- C2: every transport, API, parse or storage error arising in a
symbol's fetch or write steps is caught inside `ingest_etf_data` and
converted into an outcome with status `'error'` carrying a message
(status is `'error'` exactly when some executed step fails), and the
scheduled batch keeps processing every symbol of the list no matter
which symbols fail. -/
theorem ingest_error_isolation (c : AlphaVantageETFIngest) (env : Env)
    (s : String) (ih : Bool) :
    ((c.ingest_etf_data env s ih).2.status = "error"
        ↔ anyStepFails env s ih = true)
    ∧ ((c.ingest_etf_data env s ih).2.status = "error" →
        (c.ingest_etf_data env s ih).2.error_message.isSome = true)
    ∧ (∀ (cfg : Config) (ce : CloudEvent) (c' : AlphaVantageETFIngest),
        AlphaVantageETFIngest.init cfg = .ok c' → ce.symbols.getD [] ≠ [] →
        (etf_data_ingest_scheduled cfg env ce).2
          = .ok (some ((ce.symbols.getD []).map
              fun sym => (c'.ingest_etf_data env sym
                (ce.include_holdings.getD true)).2))) := by
  refine ⟨?_, ?_, ?_⟩
  · rcases profile_cases env s with ⟨hf, e, hp⟩ | ⟨hf, d, hresp, hp⟩
    · rw [ingest_profile_fetch_err hp]
      simp [anyStepFails, hf]
    · rcases store_profile_cases c env d s with ⟨hwf, e, hw⟩ | ⟨hwf, hw⟩
      · rw [ingest_profile_write_err hp hw]
        simp [anyStepFails, hf, hwf]
      · cases ih with
        | false =>
          rw [ingest_no_holdings_ok hp hw]
          simp [anyStepFails, hf, hwf]
        | true =>
          rcases holdings_cases env s with ⟨hhf, e, hh⟩ | ⟨hhf, d2, hresp2, hh⟩
          · rw [ingest_holdings_fetch_err hp hw hh]
            simp [anyStepFails, hf, hwf, hhf]
          · rcases store_holdings_cases c env d2 s with ⟨hw2f, e, hw2⟩ | ⟨hw2f, hw2⟩
            · rw [ingest_holdings_write_err hp hw hh hw2]
              simp [anyStepFails, hf, hwf, hhf, hw2f]
            · rw [ingest_all_ok hp hw hh hw2]
              simp [anyStepFails, hf, hwf, hhf, hw2f]
  · intro herr
    exact (ingest_msg_iff_error c env s ih).mpr herr
  · intro cfg ce c' hc hne
    have hfalse : (ce.symbols.getD [] = []) = False := eq_false hne
    simp only [etf_data_ingest_scheduled, hc, hfalse, if_false, List.map_map,
      Function.comp_def]

/-- Witness for C2 on a batch with a duplicated symbol and an
all-success environment. -/
theorem ingest_error_isolation_witness :
    (etf_data_ingest_scheduled cexCfg wEnv cexEvent).2
      = .ok (some ((cexEvent.symbols.getD []).map
          fun sym => (cClient.ingest_etf_data wEnv sym
            (cexEvent.include_holdings.getD true)).2)) :=
  (ingest_error_isolation cClient wEnv "QQQ" true).2.2 cexCfg cexEvent cClient
    rfl (by decide)

/-- C3: if the profile fetch fails (including an in-band API error) or
the profile write fails, `ingest_etf_data` returns status `'error'`
with an empty `files_created` list, no artifact is created (the trace
holds no successful upload), the holdings fetch is never issued, and
the only upload ever attempted is the profile one. -/
theorem ingest_profile_failure_halts (c : AlphaVantageETFIngest) (env : Env)
    (s : String) (ih : Bool)
    (h : profileFetchFails env s = true ∨ profileWriteFails env s = true) :
    ((c.ingest_etf_data env s ih).2.status = "error")
    ∧ ((c.ingest_etf_data env s ih).2.files_created = [])
    ∧ (∀ e ∈ (c.ingest_etf_data env s ih).1, ∀ b, e ≠ .gcsUpload b true)
    ∧ (∀ e ∈ (c.ingest_etf_data env s ih).1, ∀ sym, e ≠ .apiCall "ETF_HOLDINGS" sym)
    ∧ (∀ e ∈ (c.ingest_etf_data env s ih).1, e.isUpload = true →
        ∃ ok, e = .gcsUpload (blobName s "profile" env.now env.now) ok) := by
  rcases profile_cases env s with ⟨hf, e0, hp⟩ | ⟨hf, d, hresp, hp⟩
  · rw [ingest_profile_fetch_err hp]
    refine ⟨rfl, rfl, ?_, ?_, ?_⟩
    · intro e he b
      simp only [List.mem_singleton] at he
      subst he
      simp
    · intro e he sym
      simp only [List.mem_singleton] at he
      subst he
      simp
    · intro e he hu
      simp only [List.mem_singleton] at he
      subst he
      simp [Event.isUpload] at hu
  · have hwf2 : profileWriteFails env s = true := by
      rcases h with h | h
      · rw [h] at hf
        exact absurd hf (by simp)
      · exact h
    rcases store_profile_cases c env d s with ⟨hwf, e0, hw⟩ | ⟨hwf, hw⟩
    · rw [ingest_profile_write_err hp hw]
      refine ⟨rfl, rfl, ?_, ?_, ?_⟩
      · intro e he b
        simp only [List.mem_append, List.mem_singleton] at he
        rcases he with (he | he) | he
        · subst he
          simp
        · rcases mem_noteEvents he with ⟨w, rfl⟩
          simp
        · subst he
          simp
      · intro e he sym
        simp only [List.mem_append, List.mem_singleton] at he
        rcases he with (he | he) | he
        · subst he
          simp
        · rcases mem_noteEvents he with ⟨w, rfl⟩
          simp
        · subst he
          simp
      · intro e he hu
        simp only [List.mem_append, List.mem_singleton] at he
        rcases he with (he | he) | he
        · subst he
          simp [Event.isUpload] at hu
        · rcases mem_noteEvents he with ⟨w, rfl⟩
          simp [Event.isUpload] at hu
        · subst he
          exact ⟨false, rfl⟩
    · rw [hwf2] at hwf
      exact absurd hwf (by simp)

/-- Witness for C3 in an environment whose profile fetch raises a
transport error. -/
theorem ingest_profile_failure_halts_witness :
    (cClient.ingest_etf_data fEnv "QQQ" true).2.status = "error"
    ∧ (cClient.ingest_etf_data fEnv "QQQ" true).2.files_created = [] := by
  have h := ingest_profile_failure_halts cClient fEnv "QQQ" true (Or.inl rfl)
  exact ⟨h.1, h.2.1⟩

/-- C4: if the profile fetch and write succeed, holdings are requested,
and the holdings fetch or write then fails, `ingest_etf_data` returns
status `'error'` whose `files_created` list is exactly the successfully
written profile location. -/
theorem ingest_partial_retains_profile (c : AlphaVantageETFIngest) (env : Env)
    (s : String)
    (h1 : profileFetchFails env s = false) (h2 : profileWriteFails env s = false)
    (h3 : holdingsFetchFails env s = true ∨ holdingsWriteFails env s = true) :
    (c.ingest_etf_data env s true).2.status = "error"
    ∧ (c.ingest_etf_data env s true).2.files_created
        = [profileLocation c env s] := by
  rcases profile_cases env s with ⟨hf, e0, hp⟩ | ⟨hf, d, hresp, hp⟩
  · rw [h1] at hf
    exact absurd hf (by simp)
  · rcases store_profile_cases c env d s with ⟨hwf, e0, hw⟩ | ⟨hwf, hw⟩
    · rw [h2] at hwf
      exact absurd hwf (by simp)
    · rcases holdings_cases env s with ⟨hhf, e0, hh⟩ | ⟨hhf, d2, hresp2, hh⟩
      · rw [ingest_holdings_fetch_err hp hw hh]
        exact ⟨rfl, rfl⟩
      · rcases store_holdings_cases c env d2 s with ⟨hw2f, e0, hw2⟩ | ⟨hw2f, hw2⟩
        · rw [ingest_holdings_write_err hp hw hh hw2]
          exact ⟨rfl, rfl⟩
        · rcases h3 with h3 | h3
          · rw [h3] at hhf
            exact absurd hhf (by simp)
          · rw [h3] at hw2f
            exact absurd hw2f (by simp)

/-- Witness for C4 in an environment whose holdings fetch raises after
a successful profile pipeline. -/
theorem ingest_partial_retains_profile_witness :
    (cClient.ingest_etf_data hEnv "QQQ" true).2.status = "error"
    ∧ (cClient.ingest_etf_data hEnv "QQQ" true).2.files_created
        = [profileLocation cClient hEnv "QQQ"] :=
  ingest_partial_retains_profile cClient hEnv "QQQ" rfl rfl (Or.inl rfl)

/-- C6: with `include_holdings = False`, `ingest_etf_data` issues
exactly one upstream API query — the PROFILE one — and, when the fetch
and write succeed, performs exactly one artifact write and returns
status `'success'` with exactly one location. -/
theorem ingest_profile_only_single_call (c : AlphaVantageETFIngest) (env : Env)
    (s : String) :
    ((c.ingest_etf_data env s false).1.filter Event.isApiCall
        = [Event.apiCall "ETF_PROFILE" s])
    ∧ (profileFetchFails env s = false → profileWriteFails env s = false →
        (c.ingest_etf_data env s false).2.status = "success"
        ∧ (c.ingest_etf_data env s false).2.files_created
            = [profileLocation c env s]
        ∧ (c.ingest_etf_data env s false).1.filter Event.isUpload
            = [Event.gcsUpload (blobName s "profile" env.now env.now) true]) := by
  rcases profile_cases env s with ⟨hf, e0, hp⟩ | ⟨hf, d, hresp, hp⟩
  · rw [ingest_profile_fetch_err hp]
    refine ⟨by simp [Event.isApiCall], fun hff _ => ?_⟩
    rw [hff] at hf
    exact absurd hf (by simp)
  · rcases store_profile_cases c env d s with ⟨hwf, e0, hw⟩ | ⟨hwf, hw⟩
    · rw [ingest_profile_write_err hp hw]
      refine ⟨?_, fun _ hwff => ?_⟩
      · simp [List.filter_append, noteEvents_filter_apiCall, Event.isApiCall]
      · rw [hwff] at hwf
        exact absurd hwf (by simp)
    · rw [ingest_no_holdings_ok hp hw]
      refine ⟨?_, fun _ _ => ⟨rfl, rfl, ?_⟩⟩
      · simp [List.filter_append, noteEvents_filter_apiCall, Event.isApiCall]
      · simp [List.filter_append, noteEvents_filter_upload, Event.isApiCall,
          Event.isUpload]

/-- Witness for C6 in an all-success environment. -/
theorem ingest_profile_only_single_call_witness :
    (cClient.ingest_etf_data wEnv "QQQ" false).2.status = "success"
    ∧ (cClient.ingest_etf_data wEnv "QQQ" false).2.files_created
        = [profileLocation cClient wEnv "QQQ"] := by
  have h := (ingest_profile_only_single_call cClient wEnv "QQQ").2 rfl rfl
  exact ⟨h.1, h.2.1⟩

/-- C1 (amended): for every non-empty symbol list the scheduled batch
run invokes the orchestrator once per symbol in input order and returns
a result sequence whose length equals the input list's length and whose
i-th outcome is for the i-th requested symbol, regardless of which
symbols fail; for duplicate-free lists this length equals the number of
distinct symbols, but in general it is the input length, not the
distinct count. -/
theorem scheduled_batch_order (cfg : Config) (env : Env) (ce : CloudEvent)
    (c : AlphaVantageETFIngest)
    (hc : AlphaVantageETFIngest.init cfg = .ok c)
    (hne : ce.symbols.getD [] ≠ []) :
    ∃ rs : List SymbolOutcome,
      (etf_data_ingest_scheduled cfg env ce).2 = .ok (some rs)
      ∧ rs.length = (ce.symbols.getD []).length
      ∧ rs = (ce.symbols.getD []).map
          (fun s => (c.ingest_etf_data env s (ce.include_holdings.getD true)).2)
      ∧ ∀ (i : Nat) (hi : i < rs.length) (hj : i < (ce.symbols.getD []).length),
          (rs.get ⟨i, hi⟩).symbol = (ce.symbols.getD []).get ⟨i, hj⟩ := by
  refine ⟨(ce.symbols.getD []).map
      (fun s => (c.ingest_etf_data env s (ce.include_holdings.getD true)).2),
    ?_, by simp, rfl, ?_⟩
  · have hfalse : (ce.symbols.getD [] = []) = False := eq_false hne
    simp only [etf_data_ingest_scheduled, hc, hfalse, if_false, List.map_map,
      Function.comp_def]
  · intro i hi hj
    simp only [List.get_eq_getElem, List.getElem_map]
    exact ingest_symbol_eq c env _ _

/-- Witness for C1 on a concrete two-element batch. -/
theorem scheduled_batch_order_witness :
    ∃ rs : List SymbolOutcome,
      (etf_data_ingest_scheduled cexCfg wEnv cexEvent).2 = .ok (some rs)
      ∧ rs.length = 2 := by
  obtain ⟨rs, ha, hb, -, -⟩ :=
    scheduled_batch_order cexCfg wEnv cexEvent cClient rfl (by decide)
  exact ⟨rs, ha, by rw [hb]; rfl⟩

/-- C1 counterexample: on the duplicated list `["QQQ", "QQQ"]` the
batch result has two entries while only one distinct symbol was
requested, so the result length differs from the number of distinct
symbols requested. -/
theorem scheduled_dedup_counterexample :
    ∃ rs : List SymbolOutcome,
      (etf_data_ingest_scheduled cexCfg wEnv cexEvent).2 = .ok (some rs)
      ∧ rs.length ≠ ((cexEvent.symbols.getD []).dedup).length := by
  refine ⟨((cexEvent.symbols.getD []).map
      (fun s => cClient.ingest_etf_data wEnv s
        (cexEvent.include_holdings.getD true))).map Prod.snd, rfl, ?_⟩
  have hlen : (((cexEvent.symbols.getD []).map
      (fun s => cClient.ingest_etf_data wEnv s
        (cexEvent.include_holdings.getD true))).map Prod.snd).length = 2 := by
    simp [cexEvent]
  rw [hlen]
  decide

/-- C8: a non-POST request, a falsy JSON body, or a falsy `symbol`
field is rejected with status 405 resp. 400 before any upstream call or
storage write (the event trace is empty); otherwise, with a valid
configuration, the handler returns the ingestion outcome with status
200 exactly when the outcome's status is `'success'` and 500 in every
other case. -/
theorem http_handler_status (cfg : Config) (env : Env) (req : HttpRequest) :
    (req.method ≠ "POST" →
      etf_data_ingest cfg env req = ([], .errorJson "只支持 POST 请求", 405))
    ∧ (req.method = "POST" → req.json = none →
      etf_data_ingest cfg env req
        = ([], .errorJson "请求体必须是有效的 JSON", 400))
    ∧ (req.method = "POST" → ∀ rj, req.json = some rj →
        rj.symbol.getD "" = "" →
      etf_data_ingest cfg env req = ([], .errorJson "参数 symbol 是必需的", 400))
    ∧ (req.method = "POST" → ∀ rj, req.json = some rj →
        rj.symbol.getD "" ≠ "" →
        ∀ c, AlphaVantageETFIngest.init cfg = .ok c →
      etf_data_ingest cfg env req
        = ((c.ingest_etf_data env (rj.symbol.getD "")
              (rj.include_holdings.getD true)).1,
           .outcome (c.ingest_etf_data env (rj.symbol.getD "")
              (rj.include_holdings.getD true)).2,
           if (c.ingest_etf_data env (rj.symbol.getD "")
              (rj.include_holdings.getD true)).2.status = "success"
           then 200 else 500)
      ∧ ((etf_data_ingest cfg env req).2.2 = 200
          ↔ (c.ingest_etf_data env (rj.symbol.getD "")
              (rj.include_holdings.getD true)).2.status = "success")
      ∧ ((etf_data_ingest cfg env req).2.2 = 200
          ∨ (etf_data_ingest cfg env req).2.2 = 500)) := by
  refine ⟨?_, ?_, ?_, ?_⟩
  · intro hm
    simp [etf_data_ingest, hm]
  · intro hm hj
    simp [etf_data_ingest, hm, hj]
  · intro hm rj hj hs
    simp [etf_data_ingest, hm, hj, hs]
  · intro hm rj hj hs c hc
    have heq : etf_data_ingest cfg env req
        = ((c.ingest_etf_data env (rj.symbol.getD "")
              (rj.include_holdings.getD true)).1,
           .outcome (c.ingest_etf_data env (rj.symbol.getD "")
              (rj.include_holdings.getD true)).2,
           if (c.ingest_etf_data env (rj.symbol.getD "")
              (rj.include_holdings.getD true)).2.status = "success"
           then 200 else 500) := by
      simp [etf_data_ingest, hm, hj, hs, hc]
    refine ⟨heq, ?_, ?_⟩ <;> rw [heq]
    · by_cases hst : (c.ingest_etf_data env (rj.symbol.getD "")
          (rj.include_holdings.getD true)).2.status = "success"
      · simp [hst]
      · simp [hst]
    · by_cases hst : (c.ingest_etf_data env (rj.symbol.getD "")
          (rj.include_holdings.getD true)).2.status = "success"
      · simp [hst]
      · simp [hst]

/-- Witness for C8: a GET request is rejected with 405, and a
well-formed POST request gets a 200-or-500 status. -/
theorem http_handler_status_witness :
    etf_data_ingest cexCfg wEnv ⟨"GET", none⟩
      = ([], .errorJson "只支持 POST 请求", 405)
    ∧ ((etf_data_ingest cexCfg wEnv
          ⟨"POST", some ⟨some "QQQ", some false⟩⟩).2.2 = 200
        ∨ (etf_data_ingest cexCfg wEnv
          ⟨"POST", some ⟨some "QQQ", some false⟩⟩).2.2 = 500) := by
  refine ⟨(http_handler_status cexCfg wEnv ⟨"GET", none⟩).1 (by decide), ?_⟩
  exact ((http_handler_status cexCfg wEnv
    ⟨"POST", some ⟨some "QQQ", some false⟩⟩).2.2.2 rfl _ rfl (by decide)
    cClient rfl).2.2

end EtfIngest
